import Mathlib

/-!
Shallow embedding of the SSO portal server (src/app.py): the invalidation
store (Redis db 1), the session record, the logout coordinator and the
authentication gate.  Redis keys are modelled literally, including the
`logout:` prefix and Python's f-string interpolation of `None`, so that key
collisions (a user id `*`, a user id `None`) behave exactly as in the code.
Each handler becomes a pure function from its inputs and the pair
(session, store) to a response together with the updated pair.
-/

namespace SSOPortal

/-- A user record as stored in the Flask session under the key `user`
(app.py lines 204-210).  `id` is `user_info.get('sub')`, so it can be
absent (`none`); `roles` defaults to the empty list. -/
structure UserRec where
  id : Option String
  username : Option String
  roles : List String
  deriving DecidableEq, Repr

/-- The Flask session record: the `user` entry (absent means
`'user' not in session`) and the `access_token` entry. -/
structure Sess where
  user : Option UserRec
  access_token : Option String
  deriving DecidableEq, Repr

/-- `session.clear()`. -/
def Sess.clear : Sess := ⟨none, none⟩

/-- `session.get('user', {}).get('id')`: `none` both when there is no user
entry and when the user record has no id, exactly as in Python where
`{}.get('id')` is `None`. -/
def Sess.userId (s : Sess) : Option String := s.user.bind UserRec.id

/-- The invalidation store (Redis db 1, `logout_redis`): a list of
`(key, ttl)` pairs, one per live (non-expired) key.  `ttl` records the
value passed to `SETEX` when the key was last written. -/
abbrev Store := List (String × Nat)

/-- `logout_redis.exists(k)` restricted to one key: true when a live entry
with that exact key is present.  Redis `EXISTS` does no glob matching, so
`logout:*` is an ordinary literal key. -/
def redisExists (st : Store) (k : String) : Bool :=
  st.any (fun p => p.1 == k)

/-- `logout_redis.delete(k)`: removes every live entry with that exact key. -/
def redisDelete (st : Store) (k : String) : Store :=
  st.filter (fun p => p.1 != k)

/-- `logout_redis.setex(k, ttl, "1")`: overwrites the key with a fresh ttl. -/
def redisSetex (st : Store) (k : String) (ttl : Nat) : Store :=
  (k, ttl) :: redisDelete st k

/-- The ttl recorded for a key, `none` when the key is absent. -/
def ttlOf (st : Store) (k : String) : Option Nat :=
  (st.find? (fun p => p.1 == k)).map (fun p => p.2)

/-- Python's `f"logout:{user_id}"`: interpolating `None` yields the literal
string `None`, so a missing id maps to the key `logout:None`. -/
def logoutKey : Option String → String
  | none => "logout:" ++ "None"
  | some s => "logout:" ++ s

/-- Python truthiness of an optional string (`if user_id:`): `None` and the
empty string are falsy, every other string is truthy. -/
def truthyStr : Option String → Bool
  | none => false
  | some s => !(s == "")

/-- The default ttl of `mark_user_logged_out` (app.py line 114): one hour. -/
def DEFAULT_TTL : Nat := 3600

/-- app.py lines 111-112: a subject is logged out when its own key or the
wildcard key `logout:*` is live. -/
def is_user_logged_out (st : Store) (user_id : Option String) : Bool :=
  redisExists st (logoutKey user_id) || redisExists st "logout:*"

/-- app.py lines 114-115.  Every caller in the program omits `ttl`, so the
Python default `3600` (`DEFAULT_TTL`) is what call sites pass here. -/
def mark_user_logged_out (st : Store) (user_id : Option String) (ttl : Nat) : Store :=
  redisSetex st (logoutKey user_id) ttl

/-- app.py lines 117-118: deletes only the subject's own key. -/
def clear_logout_state (st : Store) (user_id : Option String) : Store :=
  redisDelete st (logoutKey user_id)

/-- The auth gate's per-request decision. -/
inductive Decision where
  | redirectLogin
  | allow
  deriving DecidableEq, Repr

/-- app.py lines 124-148, `require_auth`'s `decorated_function`: no `user`
key redirects to login; a marked user clears the session, re-marks the
concrete id when the wildcard key is live and the id is truthy, and
redirects to login; otherwise the request is allowed through. -/
def require_auth (sess : Sess) (st : Store) : Decision × Sess × Store :=
  match sess.user with
  | none => (Decision.redirectLogin, sess, st)
  | some u =>
    let user_id := u.id
    if is_user_logged_out st user_id then
      let original_user_id := user_id
      if redisExists st "logout:*" && truthyStr original_user_id then
        (Decision.redirectLogin, Sess.clear, mark_user_logged_out st original_user_id DEFAULT_TTL)
      else
        (Decision.redirectLogin, Sess.clear, st)
    else
      (Decision.allow, sess, st)

/-- The identity claims of `token.get('userinfo')` (app.py lines 201-210).
An absent or empty (hence falsy) userinfo dict is modelled as `none`. -/
structure UserInfo where
  sub : Option String
  preferred_username : Option String
  email : Option String
  display : Option String
  roles : List String
  deriving DecidableEq, Repr

/-- The token returned by `authorize_access_token`. -/
structure TokenResp where
  userinfo : Option UserInfo
  access_token : Option String
  deriving DecidableEq, Repr

/-- The responses the modelled handlers can produce. -/
inductive Resp where
  | redirectLogin
  | redirectDashboard
  | redirectKeycloakLogout
  | notAvailable404
  | errorPage
  | dashboardPage (user : UserRec) (is_admin : Bool)
  | logoutAck200
  | loggedOutGeneric200
  | serverError500
  deriving DecidableEq, Repr

/-- app.py lines 191-229, `admin_callback`.  `exchange` is the outcome of
`keycloak_client.authorize_access_token()`: `Except.error` when the library
raises `AuthlibBaseError`.  On usable claims the session is populated and
the user's own key and the wildcard key are deleted from the store. -/
def admin_callback (portal : String) (clientOk : Bool)
    (exchange : Except String TokenResp) (sess : Sess) (st : Store) :
    Resp × Sess × Store :=
  if portal != "admin" then (Resp.notAvailable404, sess, st)
  else if !clientOk then (Resp.errorPage, sess, st)
  else
    match exchange with
    | Except.error _ => (Resp.errorPage, sess, st)
    | Except.ok token =>
      match token.userinfo with
      | some ui =>
        let user : UserRec := ⟨ui.sub, ui.preferred_username, ui.roles⟩
        let sess1 : Sess := ⟨some user, token.access_token⟩
        let user_id := ui.sub
        let st1 := clear_logout_state st user_id
        let st2 := redisDelete st1 "logout:*"
        (Resp.redirectDashboard, sess1, st2)
      | none => (Resp.errorPage, sess, st)

/-- app.py lines 270-302, the POST branch of `logout` (back-channel).  The
`logout_token` form field is read but only logged; the handler marks the
session's user id when it is truthy, always marks the wildcard, clears the
session when a `user` entry exists, and returns the fixed 200. -/
def logout_post (_logout_token : Option String) (sess : Sess) (st : Store) :
    Resp × Sess × Store :=
  let current_user_id_in_session := sess.userId
  let st1 :=
    if truthyStr current_user_id_in_session then
      mark_user_logged_out st current_user_id_in_session DEFAULT_TTL
    else st
  let st2 := mark_user_logged_out st1 (some "*") DEFAULT_TTL
  let sess1 := if sess.user.isSome then Sess.clear else sess
  (Resp.logoutAck200, sess1, st2)

/-- app.py lines 304-322, the GET branch of `logout` (front-channel): marks
the session's user id when truthy, always clears the session, and then
redirects to the admin login page on the admin portal or returns the
generic acknowledgement elsewhere. -/
def logout_get (portal : String) (sess : Sess) (st : Store) :
    Resp × Sess × Store :=
  let current_user_id := sess.userId
  let st1 :=
    if truthyStr current_user_id then
      mark_user_logged_out st current_user_id DEFAULT_TTL
    else st
  let sess1 := Sess.clear
  if portal == "admin" then (Resp.redirectLogin, sess1, st1)
  else (Resp.loggedOutGeneric200, sess1, st1)

/-- app.py lines 325-348, `admin_logout`: on the admin portal, marks the
session's user id when truthy, clears the session and redirects to the
identity provider's logout endpoint. -/
def admin_logout (portal : String) (sess : Sess) (st : Store) :
    Resp × Sess × Store :=
  if portal != "admin" then (Resp.notAvailable404, sess, st)
  else
    let user_id := sess.userId
    let st1 :=
      if truthyStr user_id then
        mark_user_logged_out st user_id DEFAULT_TTL
      else st
    (Resp.redirectKeycloakLogout, Sess.clear, st1)

/-- app.py lines 231-261, the body of `admin_dashboard` (after the gate):
the portal check happens here, inside the handler.  `session.get('user')`
returning `None` would raise on `.get('roles')`, a 500. -/
def admin_dashboard (portal : String) (sess : Sess) (st : Store) :
    Resp × Sess × Store :=
  if portal != "admin" then (Resp.notAvailable404, sess, st)
  else
    match sess.user with
    | none => (Resp.serverError500, sess, st)
    | some u =>
      let is_admin := u.roles.contains "admin" || u.roles.contains "approver"
      (Resp.dashboardPage u is_admin, sess, st)

/-- The full `/admin/dashboard` endpoint: `require_auth` wraps the handler
(the decorator runs first), so the gate decides before the handler's
portal check is ever reached. -/
def admin_dashboard_route (portal : String) (sess : Sess) (st : Store) :
    Resp × Sess × Store :=
  match require_auth sess st with
  | (Decision.redirectLogin, sess1, st1) => (Resp.redirectLogin, sess1, st1)
  | (Decision.allow, sess1, st1) => admin_dashboard portal sess1 st1

/-! Store lemmas. -/

lemma logout_prefix_inj {a b : String} (h : ("logout:" ++ a : String) = "logout:" ++ b) :
    a = b := by
  have h2 := congrArg String.data h
  simp [String.data_append] at h2
  exact String.ext h2

lemma redisExists_iff_mem (st : Store) (k : String) :
    redisExists st k = true ↔ ∃ t, (k, t) ∈ st := by
  constructor
  · intro h
    rcases List.any_eq_true.mp h with ⟨⟨a, b⟩, hp, hb⟩
    have ha : a = k := by simpa using hb
    exact ⟨b, ha ▸ hp⟩
  · rintro ⟨t, ht⟩
    exact List.any_eq_true.mpr ⟨(k, t), ht, by simp⟩

lemma mem_redisDelete {st : Store} {k k' : String} {t : Nat} :
    (k, t) ∈ redisDelete st k' ↔ (k, t) ∈ st ∧ k ≠ k' := by
  simp [redisDelete, List.mem_filter, bne_iff_ne]

lemma redisDelete_cons_pos {p : String × Nat} {l : Store} {k : String} (h : p.1 = k) :
    redisDelete (p :: l) k = redisDelete l k := by
  simp [redisDelete, List.filter_cons, h]

lemma redisDelete_cons_neg {p : String × Nat} {l : Store} {k : String} (h : ¬ p.1 = k) :
    redisDelete (p :: l) k = p :: redisDelete l k := by
  simp [redisDelete, List.filter_cons, h]

lemma ttlOf_cons_pos {p : String × Nat} {l : Store} {k : String} (h : (p.1 == k) = true) :
    ttlOf (p :: l) k = some p.2 := by
  simp [ttlOf, List.find?_cons, h]

lemma ttlOf_cons_neg {p : String × Nat} {l : Store} {k : String} (h : (p.1 == k) = false) :
    ttlOf (p :: l) k = ttlOf l k := by
  simp [ttlOf, List.find?_cons, h]

lemma redisExists_delete_self (st : Store) (k : String) :
    redisExists (redisDelete st k) k = false := by
  by_contra h
  rcases (redisExists_iff_mem _ _).mp (by simpa using h) with ⟨t, ht⟩
  exact (mem_redisDelete.mp ht).2 rfl

lemma redisExists_delete_other (st : Store) {k k' : String} (h : k ≠ k') :
    redisExists (redisDelete st k') k = redisExists st k := by
  rw [Bool.eq_iff_iff]
  simp only [redisExists_iff_mem]
  constructor
  · rintro ⟨t, ht⟩
    exact ⟨t, (mem_redisDelete.mp ht).1⟩
  · rintro ⟨t, ht⟩
    exact ⟨t, mem_redisDelete.mpr ⟨ht, h⟩⟩

lemma redisExists_setex_self (st : Store) (k : String) (t : Nat) :
    redisExists (redisSetex st k t) k = true := by
  simp [redisSetex, redisExists]

lemma redisExists_setex_mono (st : Store) {k : String} (k' : String) (t : Nat)
    (h : redisExists st k = true) : redisExists (redisSetex st k' t) k = true := by
  by_cases hk : k = k'
  · subst hk
    exact redisExists_setex_self st k t
  · rcases (redisExists_iff_mem _ _).mp h with ⟨u, hu⟩
    exact (redisExists_iff_mem _ _).mpr ⟨u, List.mem_cons_of_mem _ (mem_redisDelete.mpr ⟨hu, hk⟩)⟩

lemma ttlOf_setex_self (st : Store) (k : String) (t : Nat) :
    ttlOf (redisSetex st k t) k = some t := by
  simp [redisSetex, ttlOf, List.find?_cons]

lemma ttlOf_delete_other {st : Store} {k k' : String} (h : k ≠ k') :
    ttlOf (redisDelete st k') k = ttlOf st k := by
  induction st with
  | nil => rfl
  | cons p l ih =>
    by_cases hp : p.1 = k'
    · have hk : (p.1 == k) = false := by
        rw [hp]
        exact beq_eq_false_iff_ne.mpr (Ne.symm h)
      rw [redisDelete_cons_pos hp, ih, ttlOf_cons_neg hk]
    · by_cases hpk : p.1 = k
      · rw [redisDelete_cons_neg hp, ttlOf_cons_pos (beq_iff_eq.mpr hpk),
          ttlOf_cons_pos (beq_iff_eq.mpr hpk)]
      · rw [redisDelete_cons_neg hp, ttlOf_cons_neg (beq_eq_false_iff_ne.mpr hpk),
          ttlOf_cons_neg (beq_eq_false_iff_ne.mpr hpk), ih]

lemma ttlOf_setex_other {st : Store} {k k' : String} (h : k ≠ k') (t : Nat) :
    ttlOf (redisSetex st k' t) k = ttlOf st k := by
  rw [redisSetex,
    ttlOf_cons_neg (beq_eq_false_iff_ne.mpr (Ne.symm h) : ((k', t).1 == k) = false)]
  exact ttlOf_delete_other h

/-- After a successful callback the store holds neither the new user's own
key nor the wildcard key, so the user is no longer marked. -/
lemma callback_store_unmarked (st : Store) (uid : Option String) :
    is_user_logged_out (redisDelete (clear_logout_state st uid) "logout:*") uid = false := by
  rw [is_user_logged_out, Bool.or_eq_false_iff]
  refine ⟨?_, redisExists_delete_self _ _⟩
  by_cases hk : logoutKey uid = "logout:*"
  · rw [hk]
    exact redisExists_delete_self _ _
  · rw [redisExists_delete_other _ hk, clear_logout_state, redisExists_delete_self]

/-- When the gate allows a request, it leaves the session and the store
unchanged: `allow` is only reached on the final branch of `require_auth`. -/
lemma require_auth_allow_frame {sess : Sess} {st : Store}
    (h : (require_auth sess st).1 = Decision.allow) :
    require_auth sess st = (Decision.allow, sess, st) := by
  cases hu : sess.user with
  | none => simp [require_auth, hu] at h
  | some u =>
    by_cases hm : is_user_logged_out st u.id = true
    · by_cases hw : (redisExists st "logout:*" && truthyStr u.id) = true
      · simp [require_auth, hu, hm, hw] at h
      · have hw' : (redisExists st "logout:*" && truthyStr u.id) = false := by simpa using hw
        simp [require_auth, hu, hm, hw'] at h
    · have hm' : is_user_logged_out st u.id = false := by simpa using hm
      simp [require_auth, hu, hm']

/-! The claims. -/

/-- C1: on a protected route the gate makes exactly one decision: with no
user in the session it redirects to login leaving everything unchanged;
with a user whose (non-empty, per the data model) id is marked it clears
the session, re-marks the concrete id exactly when the wildcard key is
live, and redirects to login; with an unmarked user it allows the request
leaving everything unchanged. -/
theorem C1_gate_trichotomy (sess : Sess) (st : Store) :
    (sess.user = none → require_auth sess st = (Decision.redirectLogin, sess, st)) ∧
    (∀ u s, sess.user = some u → u.id = some s → s ≠ "" →
      (is_user_logged_out st (some s) = false →
        require_auth sess st = (Decision.allow, sess, st)) ∧
      (is_user_logged_out st (some s) = true →
        require_auth sess st = (Decision.redirectLogin, Sess.clear,
          if redisExists st "logout:*" = true then
            mark_user_logged_out st (some s) DEFAULT_TTL
          else st))) := by
  refine ⟨fun h => by simp [require_auth, h], ?_⟩
  intro u s hu hid hs
  have ht : truthyStr (some s) = true := by simp [truthyStr, hs]
  constructor
  · intro hm
    simp [require_auth, hu, hid, hm]
  · intro hm
    by_cases hw : redisExists st "logout:*" = true
    · simp [require_auth, hu, hid, hm, hw, ht]
    · have hw' : redisExists st "logout:*" = false := by simpa using hw
      simp [require_auth, hu, hid, hm, hw', ht]

/-- C2: `is_user_logged_out` is true for a subject exactly when a live
marker for that exact subject or a live wildcard marker exists; hence a
wildcard marker alone marks every subject, and with neither marker the
subject is unmarked. -/
theorem C2_is_marked_iff (st : Store) (S : String) :
    is_user_logged_out st (some S) = true ↔
      ((∃ t, (("logout:" ++ S : String), t) ∈ st) ∨
        (∃ t, (("logout:*" : String), t) ∈ st)) := by
  rw [is_user_logged_out, Bool.or_eq_true, redisExists_iff_mem, redisExists_iff_mem]
  simp [logoutKey]

/-- C3: a successful callback with usable identity claims populates the
session from the claims, leaves the store with neither the new user's own
marker nor the wildcard marker, and a subsequent gate check on the
resulting session and store allows the request. -/
theorem C3_login_clears_markers (ui : UserInfo) (tok : TokenResp) (sess : Sess) (st : Store)
    (hui : tok.userinfo = some ui) :
    (admin_callback "admin" true (Except.ok tok) sess st).1 = Resp.redirectDashboard ∧
    (admin_callback "admin" true (Except.ok tok) sess st).2.1 =
      ⟨some ⟨ui.sub, ui.preferred_username, ui.roles⟩, tok.access_token⟩ ∧
    is_user_logged_out (admin_callback "admin" true (Except.ok tok) sess st).2.2 ui.sub = false ∧
    redisExists (admin_callback "admin" true (Except.ok tok) sess st).2.2 "logout:*" = false ∧
    require_auth ((admin_callback "admin" true (Except.ok tok) sess st).2.1)
        ((admin_callback "admin" true (Except.ok tok) sess st).2.2) =
      (Decision.allow, (admin_callback "admin" true (Except.ok tok) sess st).2.1,
        (admin_callback "admin" true (Except.ok tok) sess st).2.2) := by
  have hcb : admin_callback "admin" true (Except.ok tok) sess st =
      (Resp.redirectDashboard, ⟨some ⟨ui.sub, ui.preferred_username, ui.roles⟩, tok.access_token⟩,
        redisDelete (clear_logout_state st ui.sub) "logout:*") := by
    simp [admin_callback, hui]
  rw [hcb]
  refine ⟨rfl, rfl, callback_store_unmarked st ui.sub, redisExists_delete_self _ _, ?_⟩
  have hm := callback_store_unmarked st ui.sub
  simp [require_auth, hm]

/-- C3 at a concrete input: user `alice` logs in while both her own marker
and the wildcard marker are live. -/
theorem C3_witness :
    (admin_callback "admin" true
        (Except.ok ⟨some ⟨some "alice", some "al", none, none, []⟩, some "tk"⟩)
        ⟨none, none⟩ [("logout:alice", 9), ("logout:*", 3)]).1 = Resp.redirectDashboard ∧
    (admin_callback "admin" true
        (Except.ok ⟨some ⟨some "alice", some "al", none, none, []⟩, some "tk"⟩)
        ⟨none, none⟩ [("logout:alice", 9), ("logout:*", 3)]).2.1 =
      ⟨some ⟨some "alice", some "al", []⟩, some "tk"⟩ ∧
    is_user_logged_out
      (admin_callback "admin" true
        (Except.ok ⟨some ⟨some "alice", some "al", none, none, []⟩, some "tk"⟩)
        ⟨none, none⟩ [("logout:alice", 9), ("logout:*", 3)]).2.2 (some "alice") = false ∧
    redisExists
      (admin_callback "admin" true
        (Except.ok ⟨some ⟨some "alice", some "al", none, none, []⟩, some "tk"⟩)
        ⟨none, none⟩ [("logout:alice", 9), ("logout:*", 3)]).2.2 "logout:*" = false ∧
    require_auth
      ((admin_callback "admin" true
        (Except.ok ⟨some ⟨some "alice", some "al", none, none, []⟩, some "tk"⟩)
        ⟨none, none⟩ [("logout:alice", 9), ("logout:*", 3)]).2.1)
      ((admin_callback "admin" true
        (Except.ok ⟨some ⟨some "alice", some "al", none, none, []⟩, some "tk"⟩)
        ⟨none, none⟩ [("logout:alice", 9), ("logout:*", 3)]).2.2) =
      (Decision.allow,
        (admin_callback "admin" true
          (Except.ok ⟨some ⟨some "alice", some "al", none, none, []⟩, some "tk"⟩)
          ⟨none, none⟩ [("logout:alice", 9), ("logout:*", 3)]).2.1,
        (admin_callback "admin" true
          (Except.ok ⟨some ⟨some "alice", some "al", none, none, []⟩, some "tk"⟩)
          ⟨none, none⟩ [("logout:alice", 9), ("logout:*", 3)]).2.2) :=
  C3_login_clears_markers ⟨some "alice", some "al", none, none, []⟩
    ⟨some ⟨some "alice", some "al", none, none, []⟩, some "tk"⟩
    ⟨none, none⟩ [("logout:alice", 9), ("logout:*", 3)] rfl

/-- C4: every back-channel logout request, whatever the `logout_token`
field holds, answers the fixed 200 acknowledgement, writes the wildcard
marker with the default ttl, additionally marks and clears the session's
user when one (with a non-empty id) is present, and leaves the session
untouched when none is. -/
theorem C4_backchannel_logout (tok : Option String) (sess : Sess) (st : Store) :
    (logout_post tok sess st).1 = Resp.logoutAck200 ∧
    ttlOf (logout_post tok sess st).2.2 "logout:*" = some DEFAULT_TTL ∧
    (∀ u s, sess.user = some u → u.id = some s → s ≠ "" →
      redisExists (logout_post tok sess st).2.2 ("logout:" ++ s) = true ∧
      (logout_post tok sess st).2.1 = Sess.clear) ∧
    (sess.user = none → (logout_post tok sess st).2.1 = sess) := by
  have hkey : ("logout:*" : String) = "logout:" ++ "*" := by decide
  refine ⟨rfl, ?_, ?_, ?_⟩
  · show ttlOf (redisSetex _ (logoutKey (some "*")) DEFAULT_TTL) "logout:*" = some DEFAULT_TTL
    rw [logoutKey, ← hkey]
    exact ttlOf_setex_self _ _ _
  · intro u s hu hid hs
    have huid : sess.userId = some s := by simp [Sess.userId, hu, hid]
    have ht : truthyStr (some s) = true := by simp [truthyStr, hs]
    constructor
    · show redisExists (redisSetex _ (logoutKey (some "*")) DEFAULT_TTL) _ = true
      refine redisExists_setex_mono _ _ _ ?_
      simp only [logout_post, huid, ht, if_true]
      show redisExists (mark_user_logged_out st (some s) DEFAULT_TTL) ("logout:" ++ s) = true
      rw [mark_user_logged_out, logoutKey]
      exact redisExists_setex_self _ _ _
    · simp [logout_post, hu]
  · intro hu
    simp [logout_post, hu]

/-- C5: the spec's invariant says a session record with no user id is
never treated as authenticated, but `require_auth` only checks that a
`user` entry exists: a session whose user record has no id (for instance
populated from identity claims lacking `sub`) passes the gate whenever
`logout:None` and `logout:*` are absent. -/
theorem C5_gate_allows_session_without_id :
    require_auth ⟨some ⟨none, some "eve", []⟩, none⟩ [] =
      (Decision.allow, ⟨some ⟨none, some "eve", []⟩, none⟩, []) := by decide

/-- C6: clearing a concrete subject removes that subject's marker and
nothing else — in particular the wildcard marker survives with its ttl —
and deleting the wildcard key leaves every concrete subject's marker and
ttl untouched. -/
theorem C6_clear_frame (st : Store) (S : String) (hS : S ≠ "*") :
    (∀ t, (("logout:" ++ S : String), t) ∉ clear_logout_state st (some S)) ∧
    (∀ T t, T ≠ S →
      ((("logout:" ++ T : String), t) ∈ clear_logout_state st (some S) ↔
        (("logout:" ++ T : String), t) ∈ st)) ∧
    (∀ t, (("logout:*" : String), t) ∈ clear_logout_state st (some S) ↔
      (("logout:*" : String), t) ∈ st) ∧
    (∀ T t, T ≠ "*" →
      ((("logout:" ++ T : String), t) ∈ redisDelete st "logout:*" ↔
        (("logout:" ++ T : String), t) ∈ st)) ∧
    (∀ T, T ≠ "*" →
      ttlOf (redisDelete st "logout:*") ("logout:" ++ T) = ttlOf st ("logout:" ++ T)) := by
  have hkey : ("logout:*" : String) = "logout:" ++ "*" := by decide
  refine ⟨?_, ?_, ?_, ?_, ?_⟩
  · intro t h
    exact (mem_redisDelete.mp h).2 rfl
  · intro T t hT
    rw [clear_logout_state, mem_redisDelete]
    have hne : ("logout:" ++ T : String) ≠ logoutKey (some S) := by
      rw [logoutKey]
      exact fun hc => hT (logout_prefix_inj hc)
    simp [hne]
  · intro t
    rw [clear_logout_state, mem_redisDelete]
    have hne : ("logout:*" : String) ≠ logoutKey (some S) := by
      rw [logoutKey, hkey]
      exact fun hc => hS (logout_prefix_inj hc).symm
    simp [hne]
  · intro T t hT
    rw [mem_redisDelete]
    have hne : ("logout:" ++ T : String) ≠ "logout:*" := by
      rw [hkey]
      exact fun hc => hT (logout_prefix_inj hc)
    simp [hne]
  · intro T hT
    refine ttlOf_delete_other ?_
    rw [hkey]
    exact fun hc => hT (logout_prefix_inj hc)

/-- C6 at a concrete input: clearing `alice` from a store holding both her
marker and the wildcard marker. -/
theorem C6_witness :
    (∀ t, (("logout:" ++ "alice" : String), t) ∉
      clear_logout_state [("logout:alice", 5), ("logout:*", 9)] (some "alice")) ∧
    (∀ T t, T ≠ "alice" →
      ((("logout:" ++ T : String), t) ∈
          clear_logout_state [("logout:alice", 5), ("logout:*", 9)] (some "alice") ↔
        (("logout:" ++ T : String), t) ∈ ([("logout:alice", 5), ("logout:*", 9)] : Store))) ∧
    (∀ t, (("logout:*" : String), t) ∈
        clear_logout_state [("logout:alice", 5), ("logout:*", 9)] (some "alice") ↔
      (("logout:*" : String), t) ∈ ([("logout:alice", 5), ("logout:*", 9)] : Store)) ∧
    (∀ T t, T ≠ "*" →
      ((("logout:" ++ T : String), t) ∈
          redisDelete [("logout:alice", 5), ("logout:*", 9)] "logout:*" ↔
        (("logout:" ++ T : String), t) ∈ ([("logout:alice", 5), ("logout:*", 9)] : Store))) ∧
    (∀ T, T ≠ "*" →
      ttlOf (redisDelete [("logout:alice", 5), ("logout:*", 9)] "logout:*") ("logout:" ++ T) =
        ttlOf ([("logout:alice", 5), ("logout:*", 9)] : Store) ("logout:" ++ T)) :=
  C6_clear_frame [("logout:alice", 5), ("logout:*", 9)] "alice" (by decide)

/-- C7: when the token exchange raises, and when it succeeds without
usable identity claims, the callback answers the error page and returns
the session and the store exactly as they were. -/
theorem C7_callback_failure_no_mutation (sess : Sess) (st : Store) (e : String)
    (tok : TokenResp) (hui : tok.userinfo = none) :
    admin_callback "admin" true (Except.error e) sess st = (Resp.errorPage, sess, st) ∧
    admin_callback "admin" true (Except.ok tok) sess st = (Resp.errorPage, sess, st) := by
  constructor
  · simp [admin_callback]
  · simp [admin_callback, hui]

/-- C7 at a concrete input: an `invalid_grant` failure and a claimless
token, against a store holding a marker for `bob`. -/
theorem C7_witness :
    admin_callback "admin" true (Except.error "invalid_grant") ⟨none, none⟩
        [("logout:bob", 4)] = (Resp.errorPage, ⟨none, none⟩, [("logout:bob", 4)]) ∧
    admin_callback "admin" true (Except.ok ⟨none, some "tk"⟩) ⟨none, none⟩
        [("logout:bob", 4)] = (Resp.errorPage, ⟨none, none⟩, [("logout:bob", 4)]) :=
  C7_callback_failure_no_mutation ⟨none, none⟩ [("logout:bob", 4)] "invalid_grant"
    ⟨none, some "tk"⟩ rfl

/-- C8: a front-channel (GET) logout with a session holding a user id
marks that id with the default ttl, clears the session, and answers a
redirect to the admin login page on the admin portal or the generic
acknowledgement elsewhere. -/
theorem C8_frontchannel_logout (portal : String) (sess : Sess) (st : Store)
    (u : UserRec) (s : String)
    (hu : sess.user = some u) (hid : u.id = some s) (hs : s ≠ "") :
    logout_get portal sess st =
      ((if portal = "admin" then Resp.redirectLogin else Resp.loggedOutGeneric200),
        Sess.clear, mark_user_logged_out st (some s) DEFAULT_TTL) := by
  have huid : sess.userId = some s := by simp [Sess.userId, hu, hid]
  have ht : truthyStr (some s) = true := by simp [truthyStr, hs]
  by_cases hp : portal = "admin"
  · simp [logout_get, huid, ht, hp]
  · simp [logout_get, huid, ht, hp]

/-- C8 at a concrete input: `alice` logs out on the admin portal. -/
theorem C8_witness :
    logout_get "admin" ⟨some ⟨some "alice", none, []⟩, none⟩ [] =
      ((if ("admin" : String) = "admin" then Resp.redirectLogin else Resp.loggedOutGeneric200),
        Sess.clear, mark_user_logged_out [] (some "alice") DEFAULT_TTL) :=
  C8_frontchannel_logout "admin" ⟨some ⟨some "alice", none, []⟩, none⟩ []
    ⟨some "alice", none, []⟩ "alice" rfl rfl (by decide)

/-- C9 as stated is false: on a non-admin portal a dashboard request with
an empty session is redirected to login by the gate, not answered with the
fixed 404, because the decorator runs before the handler's portal check. -/
theorem C9_counterexample :
    (admin_dashboard_route "internal" ⟨none, none⟩ []).1 = Resp.redirectLogin ∧
    (admin_dashboard_route "internal" ⟨none, none⟩ []).1 ≠ Resp.notAvailable404 := by decide

/-- C9 amended: on a non-admin portal the fixed 404 is returned exactly by
the requests the gate allows; requests the gate rejects are redirected to
login first, whatever the portal kind. -/
theorem C9_gate_runs_before_portal_check (portal : String) (sess : Sess) (st : Store)
    (hp : portal ≠ "admin") :
    ((require_auth sess st).1 = Decision.allow →
      admin_dashboard_route portal sess st = (Resp.notAvailable404, sess, st)) ∧
    ((require_auth sess st).1 = Decision.redirectLogin →
      (admin_dashboard_route portal sess st).1 = Resp.redirectLogin) := by
  constructor
  · intro h
    have hfr := require_auth_allow_frame h
    simp [admin_dashboard_route, hfr, admin_dashboard, hp]
  · intro h
    rcases hq : require_auth sess st with ⟨d, s1, t1⟩
    rw [hq] at h
    simp at h
    subst h
    simp [admin_dashboard_route, hq]

/-- C9 amended at a concrete input: a valid session for `alice` on the
`internal` portal reaches the handler and gets the 404. -/
theorem C9_witness :
    admin_dashboard_route "internal" ⟨some ⟨some "alice", none, []⟩, none⟩ [] =
      (Resp.notAvailable404, ⟨some ⟨some "alice", none, []⟩, none⟩, []) :=
  (C9_gate_runs_before_portal_check "internal" ⟨some ⟨some "alice", none, []⟩, none⟩ []
    (by decide)).1 (by decide)

/-- C10: every marker this program writes — the back-channel wildcard and
concrete marks, the front-channel and admin-logout marks, and the gate's
concrete re-mark after a wildcard hit — carries the default ttl of exactly
3600 seconds, the re-mark independently of the wildcard marker's own
recorded ttl. -/
theorem C10_all_marks_use_default_ttl (st : Store) (sess : Sess) (u : UserRec) (s : String)
    (tok : Option String) (portal : String)
    (hu : sess.user = some u) (hid : u.id = some s) (hs : s ≠ "") :
    DEFAULT_TTL = 3600 ∧
    ttlOf (logout_post tok sess st).2.2 "logout:*" = some 3600 ∧
    ttlOf (logout_post tok sess st).2.2 ("logout:" ++ s) = some 3600 ∧
    ttlOf (logout_get portal sess st).2.2 ("logout:" ++ s) = some 3600 ∧
    ttlOf (admin_logout "admin" sess st).2.2 ("logout:" ++ s) = some 3600 ∧
    (redisExists st "logout:*" = true →
      ttlOf (require_auth sess st).2.2 ("logout:" ++ s) = some 3600) := by
  have hkey : ("logout:*" : String) = "logout:" ++ "*" := by decide
  have huid : sess.userId = some s := by simp [Sess.userId, hu, hid]
  have ht : truthyStr (some s) = true := by simp [truthyStr, hs]
  have hsetex : ∀ st' : Store, ttlOf (mark_user_logged_out st' (some s) DEFAULT_TTL)
      ("logout:" ++ s) = some 3600 := fun st' => by
    rw [mark_user_logged_out, logoutKey]
    exact ttlOf_setex_self _ _ _
  refine ⟨rfl, ?_, ?_, ?_, ?_, ?_⟩
  · show ttlOf (redisSetex _ (logoutKey (some "*")) DEFAULT_TTL) "logout:*" = some 3600
    rw [logoutKey, ← hkey]
    exact ttlOf_setex_self _ _ _
  · show ttlOf (redisSetex _ (logoutKey (some "*")) DEFAULT_TTL) ("logout:" ++ s) = some 3600
    by_cases hstar : s = "*"
    · subst hstar
      rw [logoutKey]
      exact ttlOf_setex_self _ _ _
    · rw [logoutKey, ttlOf_setex_other (fun hc => hstar (logout_prefix_inj hc))]
      simp only [logout_post, huid, ht, if_true]
      exact hsetex st
  · simp only [logout_get, huid, ht, if_true]
    by_cases hp : portal == "admin" <;> simp [hp, hsetex st]
  · simp only [admin_logout, huid, ht]
    norm_num [hsetex st]
  · intro hw
    have hm : is_user_logged_out st (some s) = true := by
      rw [is_user_logged_out, hw, Bool.or_true]
    have hr : require_auth sess st =
        (Decision.redirectLogin, Sess.clear, mark_user_logged_out st (some s) DEFAULT_TTL) := by
      simp [require_auth, hu, hid, hm, hw, ht]
    rw [hr]
    exact hsetex st

/-- C10 at a concrete input: the gate re-marks `alice` with a fresh 3600
even though the live wildcard marker was written with ttl 77. -/
theorem C10_witness :
    ttlOf (require_auth ⟨some ⟨some "alice", none, []⟩, none⟩ [("logout:*", 77)]).2.2
      ("logout:" ++ "alice") = some 3600 :=
  (C10_all_marks_use_default_ttl [("logout:*", 77)] ⟨some ⟨some "alice", none, []⟩, none⟩
    ⟨some "alice", none, []⟩ "alice" none "x" rfl rfl (by decide)).2.2.2.2.2 (by decide)

end SSOPortal
